import Mathlib

/-!
# Verification of caffe's `SyncedMemory` buffer

Shallow embedding of `include/caffe/syncedmem.hpp` (the `SyncedMemory`
class, its head-state machine and the host allocator helpers).  The header
declares the accessors (`cpu_data`, `gpu_data`, `mutable_cpu_data`,
`mutable_gpu_data`, `set_cpu_data`, the private-layout accessors) and the
two private helpers `to_cpu` / `to_gpu`; their bodies live in
`src/caffe/syncedmem.cpp`, which is not part of the sources here, so those
bodies are modelled from the specification's transition table and public
contract (each such definition carries a `Modelled from the spec:` note).
The inline code that is present in the header (`CaffeMallocHost`, the two
constructors, `head()`, `size()`, the `SyncedHead` enumeration and the
member fields) is embedded directly from the source.

Pointers are modelled as allocation identifiers (`Nat`, with `0` playing
the role of `NULL`); memory contents are byte lists; every allocator,
free, copy and converter call is recorded in an explicit event trace so
that "exactly one copy" / "never allocates" style claims are statements
about the trace.
-/

namespace SyncedMem

/-- Model of a raw pointer: an allocation identifier; `0` plays the role of
the null pointer. -/
abbrev Ptr := Nat

/-- The six head states of `enum SyncedHead` in `syncedmem.hpp`. -/
inductive SyncedHead where
  | UNINITIALIZED
  | HEAD_AT_CPU
  | HEAD_AT_GPU
  | SYNCED
  | HEAD_AT_PRV
  | SYNCED_PRV
  deriving DecidableEq, Repr

/-- Observable effects on the external allocator / device / converter
capabilities.  Allocation events record the requested size, free events
the freed pointer, copy events the byte count. -/
inductive MemEvent where
  | allocHost : Nat → MemEvent
  | freeHost : Ptr → MemEvent
  | allocDevice : Nat → MemEvent
  | freeDevice : Ptr → MemEvent
  | copyHostToDevice : Nat → MemEvent
  | copyDeviceToHost : Nat → MemEvent
  | convertPrvToCpu : MemEvent
  deriving DecidableEq, Repr

/-- The fatal message produced by `CHECK(*ptr) << "host allocation of size "
<< size << " failed"` in `CaffeMallocHost` (`syncedmem.hpp`). -/
def hostAllocFailMsg (size : Nat) : String :=
  "host allocation of size " ++ toString size ++ " failed"

/-- Embedding of `CaffeMallocHost` (`syncedmem.hpp`, lines 25-32).
`allocResult` models the return value of the underlying
`aligned_alloc`/`_mm_malloc` call, with `0` for `NULL`; `CHECK(*ptr)`
aborts fatally (modelled as `Except.error`) with a message naming the
operation and the requested size when the allocator returned `NULL`. -/
def CaffeMallocHost (allocResult : Ptr) (size : Nat) : Except String Ptr :=
  if allocResult = 0 then Except.error (hostAllocFailMsg size)
  else Except.ok allocResult

/-- Fatal message for a failed device allocation. -/
def deviceAllocFailMsg (size : Nat) : String :=
  "device allocation of size " ++ toString size ++ " failed"

/-- Modelled from the spec: the device allocator wrapper used by `to_gpu`
(in the missing `syncedmem.cpp`); per the spec, a device allocation
failure "is fatal and terminates the operation — there is no retry or
graceful degradation", with a message identifying the operation and the
requested size. -/
def deviceMalloc (allocResult : Ptr) (size : Nat) : Except String Ptr :=
  if allocResult = 0 then Except.error (deviceAllocFailMsg size)
  else Except.ok allocResult

/-- The member fields of `class SyncedMemory` (`syncedmem.hpp`): the three
pointers, size, head state, the two ownership flags and the two public
private-layout fields (`prv_descriptor_`, `sync_prv_to_cpu_`).  The model
additionally carries the byte contents behind each pointer (`cpu_mem`,
`gpu_mem`, `prv_mem`) and a fresh-pointer counter for the allocator; the
converter `sync_prv_to_cpu_func` is modelled as a function from the
private bytes and the (opaque) descriptor to host-layout bytes. -/
structure SyncedMemory where
  cpu_ptr_ : Option Ptr
  gpu_ptr_ : Option Ptr
  prv_ptr_ : Option Ptr
  cpu_mem : List Nat
  gpu_mem : List Nat
  prv_mem : List Nat
  size_ : Nat
  head_ : SyncedHead
  own_cpu_data_ : Bool
  own_prv_data_ : Bool
  prv_descriptor_ : Option Nat
  sync_prv_to_cpu_ : Option (List Nat → Nat → List Nat)
  next_ptr : Nat

/-- Embedding of `SyncedMemory::SyncedMemory(size_t size)` (`syncedmem.hpp`):
all pointers `NULL`, `size_(size)`, `head_(UNINITIALIZED)`, both ownership
flags `false`, `prv_descriptor_` and `sync_prv_to_cpu_` both `NULL`. -/
def newSyncedMemory (size : Nat) : SyncedMemory :=
  { cpu_ptr_ := none
    gpu_ptr_ := none
    prv_ptr_ := none
    cpu_mem := []
    gpu_mem := []
    prv_mem := []
    size_ := size
    head_ := SyncedHead.UNINITIALIZED
    own_cpu_data_ := false
    own_prv_data_ := false
    prv_descriptor_ := none
    sync_prv_to_cpu_ := none
    next_ptr := 1 }

/-- Embedding of the default constructor `SyncedMemory::SyncedMemory()`
(`syncedmem.hpp`), which is the sized constructor with `size_(0)`. -/
def defaultSyncedMemory : SyncedMemory := newSyncedMemory 0

/-- Embedding of the observer `SyncedHead head() { return head_; }`
(`syncedmem.hpp`).  Purity is by construction: it is a plain projection
of the state, performing no state change and no events. -/
def SyncedMemory.head (m : SyncedMemory) : SyncedHead := m.head_

/-- Embedding of the observer `size_t size() { return size_; }`
(`syncedmem.hpp`); a pure projection like `head`. -/
def SyncedMemory.size (m : SyncedMemory) : Nat := m.size_

/-- Modelled from the spec: lazy host allocation ("allocate host (if
absent)") used by the host-sync helper in the missing `syncedmem.cpp`; a
fresh pointer is drawn from the counter, the buffer becomes owned, and one
`allocHost` event is emitted.  Freshly allocated contents are modelled as
zero bytes (the spec leaves them unconstrained: "zero-fill not required"). -/
def allocHostIfAbsent (m : SyncedMemory) : SyncedMemory × List MemEvent :=
  match m.cpu_ptr_ with
  | some _ => (m, [])
  | none =>
      ({ m with
          cpu_ptr_ := some m.next_ptr
          next_ptr := m.next_ptr + 1
          cpu_mem := List.replicate m.size_ 0
          own_cpu_data_ := true },
       [MemEvent.allocHost m.size_])

/-- Modelled from the spec: lazy device allocation ("allocate device (if
absent)") used by the device-sync helper in the missing `syncedmem.cpp`. -/
def allocDeviceIfAbsent (m : SyncedMemory) : SyncedMemory × List MemEvent :=
  match m.gpu_ptr_ with
  | some _ => (m, [])
  | none =>
      ({ m with
          gpu_ptr_ := some m.next_ptr
          next_ptr := m.next_ptr + 1
          gpu_mem := List.replicate m.size_ 0 },
       [MemEvent.allocDevice m.size_])

/-- Modelled from the spec: `SyncedMemory::to_cpu()` (declared in
`syncedmem.hpp` line 78, body in the missing `syncedmem.cpp`), following
the spec's transition table for "read host": `UNINITIALIZED` allocates
host and goes to `HEAD_AT_CPU`; `HEAD_AT_GPU` allocates host if absent,
copies device to host and goes to `SYNCED`; `HEAD_AT_PRV` invokes the
private-to-host converter and goes to `SYNCED_PRV` (fatal, `none`, when no
converter/descriptor was ever established); `HEAD_AT_CPU`, `SYNCED` and
`SYNCED_PRV` do nothing. -/
def to_cpu (m : SyncedMemory) : Option (SyncedMemory × List MemEvent) :=
  match m.head_ with
  | SyncedHead.UNINITIALIZED =>
      let r := allocHostIfAbsent m
      some ({ r.1 with head_ := SyncedHead.HEAD_AT_CPU }, r.2)
  | SyncedHead.HEAD_AT_GPU =>
      let r := allocHostIfAbsent m
      some ({ r.1 with cpu_mem := r.1.gpu_mem, head_ := SyncedHead.SYNCED },
            r.2 ++ [MemEvent.copyDeviceToHost m.size_])
  | SyncedHead.HEAD_AT_PRV =>
      match m.sync_prv_to_cpu_, m.prv_descriptor_ with
      | some f, some d =>
          let r := allocHostIfAbsent m
          some ({ r.1 with cpu_mem := f r.1.prv_mem d, head_ := SyncedHead.SYNCED_PRV },
                r.2 ++ [MemEvent.convertPrvToCpu])
      | _, _ => none
  | _ => some (m, [])

/-- Modelled from the spec: `SyncedMemory::to_gpu()` (declared in
`syncedmem.hpp` line 79, body in the missing `syncedmem.cpp`), following
the spec's transition table for "read device": `UNINITIALIZED` allocates
device and goes to `HEAD_AT_GPU`; `HEAD_AT_CPU` allocates device if
absent, copies host to device and goes to `SYNCED`; `HEAD_AT_PRV` invokes
the converter to host first, then proceeds along the host-to-device path
and ends at `HEAD_AT_GPU`; `HEAD_AT_GPU`, `SYNCED` and `SYNCED_PRV` do
nothing. -/
def to_gpu (m : SyncedMemory) : Option (SyncedMemory × List MemEvent) :=
  match m.head_ with
  | SyncedHead.UNINITIALIZED =>
      let r := allocDeviceIfAbsent m
      some ({ r.1 with head_ := SyncedHead.HEAD_AT_GPU }, r.2)
  | SyncedHead.HEAD_AT_CPU =>
      let r := allocDeviceIfAbsent m
      some ({ r.1 with gpu_mem := r.1.cpu_mem, head_ := SyncedHead.SYNCED },
            r.2 ++ [MemEvent.copyHostToDevice m.size_])
  | SyncedHead.HEAD_AT_PRV =>
      match m.sync_prv_to_cpu_, m.prv_descriptor_ with
      | some f, some d =>
          let r1 := allocHostIfAbsent m
          let m1 := { r1.1 with cpu_mem := f r1.1.prv_mem d }
          let r2 := allocDeviceIfAbsent m1
          some ({ r2.1 with gpu_mem := r2.1.cpu_mem, head_ := SyncedHead.HEAD_AT_GPU },
                r1.2 ++ [MemEvent.convertPrvToCpu] ++ r2.2
                  ++ [MemEvent.copyHostToDevice m.size_])
      | _, _ => none
  | _ => some (m, [])

/-- Modelled from the spec: `SyncedMemory::cpu_data()` (read-host
accessor): sync to host via `to_cpu`, return the host pointer unchanged
otherwise. -/
def cpu_data (m : SyncedMemory) : Option (SyncedMemory × Option Ptr × List MemEvent) :=
  match to_cpu m with
  | none => none
  | some (m1, ev) => some (m1, m1.cpu_ptr_, ev)

/-- Modelled from the spec: `SyncedMemory::gpu_data()` (read-device
accessor): sync to device via `to_gpu`, return the device pointer. -/
def gpu_data (m : SyncedMemory) : Option (SyncedMemory × Option Ptr × List MemEvent) :=
  match to_gpu m with
  | none => none
  | some (m1, ev) => some (m1, m1.gpu_ptr_, ev)

/-- Modelled from the spec: `SyncedMemory::mutable_cpu_data()` (write-host
accessor): sync to host, then set the head to `HEAD_AT_CPU` ("write
accessors always transition to a head state reflecting exclusive
ownership by the written location"). -/
def mutable_cpu_data (m : SyncedMemory) :
    Option (SyncedMemory × Option Ptr × List MemEvent) :=
  match to_cpu m with
  | none => none
  | some (m1, ev) =>
      some ({ m1 with head_ := SyncedHead.HEAD_AT_CPU }, m1.cpu_ptr_, ev)

/-- Modelled from the spec: `SyncedMemory::mutable_gpu_data()`
(write-device accessor): sync to device, then set the head to
`HEAD_AT_GPU`. -/
def mutable_gpu_data (m : SyncedMemory) :
    Option (SyncedMemory × Option Ptr × List MemEvent) :=
  match to_gpu m with
  | none => none
  | some (m1, ev) =>
      some ({ m1 with head_ := SyncedHead.HEAD_AT_GPU }, m1.gpu_ptr_, ev)

/-- Modelled from the spec: `SyncedMemory::set_cpu_data(void* data)`
(declared in `syncedmem.hpp` line 61, body in the missing
`syncedmem.cpp`): "caller transfers a pointer the buffer does not own;
releases any previously owned host allocation; sets state to
`HEAD_AT_CPU`" and clears the ownership flag.  `data` carries the bytes
behind the injected pointer `p`. -/
def set_cpu_data (m : SyncedMemory) (p : Ptr) (data : List Nat) :
    SyncedMemory × List MemEvent :=
  let ev :=
    match m.cpu_ptr_, m.own_cpu_data_ with
    | some q, true => [MemEvent.freeHost q]
    | _, _ => []
  ({ m with
      cpu_ptr_ := some p
      cpu_mem := data
      head_ := SyncedHead.HEAD_AT_CPU
      own_cpu_data_ := false },
   ev)

/-- Modelled from the spec: `SyncedMemory::init_prv_data()` (declared in
`syncedmem.hpp` line 67): "allocates (or returns existing) private-layout
buffer sized identically to the host buffer's byte length"; per the
transition table, a private "write (init)" marks the private copy
authoritative (`HEAD_AT_PRV`).  The private buffer is drawn from the host
allocator. -/
def init_prv_data (m : SyncedMemory) : SyncedMemory × Ptr × List MemEvent :=
  match m.prv_ptr_ with
  | some p => ({ m with head_ := SyncedHead.HEAD_AT_PRV }, p, [])
  | none =>
      ({ m with
          prv_ptr_ := some m.next_ptr
          next_ptr := m.next_ptr + 1
          prv_mem := List.replicate m.size_ 0
          own_prv_data_ := true
          head_ := SyncedHead.HEAD_AT_PRV },
       m.next_ptr, [MemEvent.allocHost m.size_])

/-- Modelled from the spec: `SyncedMemory::mutable_prv_data()` (declared
in `syncedmem.hpp` line 69): a private write accessor "sets state to
`HEAD_AT_PRV` unconditionally (private layout is now the sole authority)";
calling it before any private buffer was established is a fatal
precondition violation (`none`). -/
def mutable_prv_data (m : SyncedMemory) :
    Option (SyncedMemory × Ptr × List MemEvent) :=
  match m.prv_ptr_ with
  | none => none
  | some p => some ({ m with head_ := SyncedHead.HEAD_AT_PRV }, p, [])

/-- Modelled from the spec: `SyncedMemory::prv_data()` (declared in
`syncedmem.hpp` line 68): read-private accessor returning the private
pointer; fatal (`none`) when no private buffer was ever established. -/
def prv_data (m : SyncedMemory) : Option (SyncedMemory × Ptr × List MemEvent) :=
  match m.prv_ptr_ with
  | none => none
  | some p => some (m, p, [])

/-- Modelled from the spec: `SyncedMemory::set_prv_data(void* data, bool
same_data)` (declared in `syncedmem.hpp` line 66): "transfers an
externally owned private buffer; `sameLayoutAsHost` is a hint the private
backend may use to skip the converter; ownership is external"; per the
transition table a private write marks the private copy authoritative. -/
def set_prv_data (m : SyncedMemory) (p : Ptr) (data : List Nat)
    (_same_data : Bool) : SyncedMemory :=
  { m with
      prv_ptr_ := some p
      prv_mem := data
      own_prv_data_ := false
      head_ := SyncedHead.HEAD_AT_PRV }

/-- Modelled from the spec: the private backend installs the opaque
`prv_descriptor_` and the converter `sync_prv_to_cpu_` together ("injected
at construction or via a setter"; the two public fields of
`syncedmem.hpp` lines 70-71). -/
def set_prv_converter (m : SyncedMemory) (d : Nat)
    (f : List Nat → Nat → List Nat) : SyncedMemory :=
  { m with prv_descriptor_ := some d, sync_prv_to_cpu_ := some f }

/-- Modelled from the spec: `SyncedMemory::~SyncedMemory()` (declared in
`syncedmem.hpp` line 59): "all owned allocations are released when the
object is destroyed; externally supplied pointers (via `set_*_data`) are
never freed by this object".  The host and private slots are freed through
the host allocator when owned; the device slot is always owned when
non-null and is freed through the device capability. -/
def destroy (m : SyncedMemory) : List MemEvent :=
  (match m.cpu_ptr_, m.own_cpu_data_ with
   | some q, true => [MemEvent.freeHost q]
   | _, _ => []) ++
  (match m.gpu_ptr_ with
   | some q => [MemEvent.freeDevice q]
   | none => []) ++
  (match m.prv_ptr_, m.own_prv_data_ with
   | some q, true => [MemEvent.freeHost q]
   | _, _ => [])

/-- Host bytes written through a pointer previously returned by a mutable
host accessor: the caller stores `bs` into the host buffer.  Only the
host contents change; no accessor of the buffer runs. -/
def writeHostBytes (m : SyncedMemory) (bs : List Nat) : SyncedMemory :=
  { m with cpu_mem := bs }

/-- Device bytes written through a pointer previously returned by a
mutable device accessor. -/
def writeDeviceBytes (m : SyncedMemory) (bs : List Nat) : SyncedMemory :=
  { m with gpu_mem := bs }

/-- Number of `allocHost` events in a trace. -/
def countHostAllocs (evs : List MemEvent) : Nat :=
  evs.countP fun e =>
    match e with
    | MemEvent.allocHost _ => true
    | _ => false

/-- Number of `allocDevice` events in a trace. -/
def countDeviceAllocs (evs : List MemEvent) : Nat :=
  evs.countP fun e =>
    match e with
    | MemEvent.allocDevice _ => true
    | _ => false

/-- Number of device-to-host copy events in a trace. -/
def countD2H (evs : List MemEvent) : Nat :=
  evs.countP fun e =>
    match e with
    | MemEvent.copyDeviceToHost _ => true
    | _ => false

/-- Number of host-to-device copy events in a trace. -/
def countH2D (evs : List MemEvent) : Nat :=
  evs.countP fun e =>
    match e with
    | MemEvent.copyHostToDevice _ => true
    | _ => false

/-- Number of copy events (either direction) in a trace. -/
def countCopies (evs : List MemEvent) : Nat := countD2H evs + countH2D evs

/-- Number of private-to-host converter invocations in a trace. -/
def countConverts (evs : List MemEvent) : Nat :=
  evs.countP fun e =>
    match e with
    | MemEvent.convertPrvToCpu => true
    | _ => false

/-- A read-only access request: read host (`cpu_data`) or read device
(`gpu_data`). -/
inductive ReadOp where
  | rhost
  | rdevice
  deriving DecidableEq, Repr

/-- The pointer a read accessor returns on a buffer it leaves unchanged. -/
def readPtrOf (m : SyncedMemory) : ReadOp → Option Ptr
  | ReadOp.rhost => m.cpu_ptr_
  | ReadOp.rdevice => m.gpu_ptr_

/-- Run a sequence of read accessors, threading the state and collecting
the returned pointers and the concatenated event trace. -/
def runReads (m : SyncedMemory) :
    List ReadOp → Option (SyncedMemory × List (Option Ptr) × List MemEvent)
  | [] => some (m, [], [])
  | op :: rest =>
      let step :=
        match op with
        | ReadOp.rhost => cpu_data m
        | ReadOp.rdevice => gpu_data m
      match step with
      | none => none
      | some (m1, p, ev) =>
          match runReads m1 rest with
          | none => none
          | some (m2, ps, evs) => some (m2, p :: ps, ev ++ evs)

/-- Well-formedness of a buffer as far as the host-read path is concerned:
the authoritative location holds `size_` bytes, a fresh
(`UNINITIALIZED`) buffer has no host allocation yet, and host-valid
states actually hold a host pointer. -/
def WFcpu (m : SyncedMemory) : Bool :=
  match m.head_ with
  | SyncedHead.UNINITIALIZED => m.cpu_ptr_ == none
  | SyncedHead.HEAD_AT_GPU => m.gpu_mem.length == m.size_
  | SyncedHead.HEAD_AT_PRV =>
      match m.sync_prv_to_cpu_, m.prv_descriptor_ with
      | some f, some d => (f m.prv_mem d).length == m.size_
      | _, _ => true
  | _ => (m.cpu_mem.length == m.size_) && !(m.cpu_ptr_ == none)

/-- The most recent host-layout bytes of a buffer, as determined by its
head state: the device copy when the device is authoritative, the
converter's output when the private copy is authoritative, fresh zero
bytes when nothing was written yet, and the host copy otherwise. -/
def currentBytes (m : SyncedMemory) : List Nat :=
  match m.head_ with
  | SyncedHead.UNINITIALIZED => List.replicate m.size_ 0
  | SyncedHead.HEAD_AT_GPU => m.gpu_mem
  | SyncedHead.HEAD_AT_PRV =>
      match m.sync_prv_to_cpu_, m.prv_descriptor_ with
      | some f, some d => f m.prv_mem d
      | _, _ => m.cpu_mem
  | _ => m.cpu_mem

/-- Consistency of the two public private-layout fields: the opaque
descriptor and the converter are either both set or both unset. -/
def prvConsistent (m : SyncedMemory) : Bool :=
  m.prv_descriptor_.isNone == m.sync_prv_to_cpu_.isNone

/-- A concrete 2-byte fresh buffer. -/
def exFresh2 : SyncedMemory := newSyncedMemory 2

/-- The state of `exFresh2` after one `mutable_cpu_data` call. -/
def exFresh2AfterWrite : SyncedMemory :=
  { cpu_ptr_ := some 1
    gpu_ptr_ := none
    prv_ptr_ := none
    cpu_mem := [0, 0]
    gpu_mem := []
    prv_mem := []
    size_ := 2
    head_ := SyncedHead.HEAD_AT_CPU
    own_cpu_data_ := true
    own_prv_data_ := false
    prv_descriptor_ := none
    sync_prv_to_cpu_ := none
    next_ptr := 2 }

/-- A concrete 1-byte buffer in state `SYNCED`, host and device both
allocated and holding the byte `9`. -/
def exSynced1 : SyncedMemory :=
  { cpu_ptr_ := some 1
    gpu_ptr_ := some 2
    prv_ptr_ := none
    cpu_mem := [9]
    gpu_mem := [9]
    prv_mem := []
    size_ := 1
    head_ := SyncedHead.SYNCED
    own_cpu_data_ := true
    own_prv_data_ := false
    prv_descriptor_ := none
    sync_prv_to_cpu_ := none
    next_ptr := 3 }

/-- A concrete identity converter from private to host layout. -/
def exConv : List Nat → Nat → List Nat := fun bs _ => bs

/-- A concrete 1-byte buffer at `HEAD_AT_CPU` whose private backend has
installed a descriptor and the identity converter. -/
def exPrvReady : SyncedMemory :=
  { cpu_ptr_ := some 1
    gpu_ptr_ := none
    prv_ptr_ := none
    cpu_mem := [4]
    gpu_mem := []
    prv_mem := []
    size_ := 1
    head_ := SyncedHead.HEAD_AT_CPU
    own_cpu_data_ := true
    own_prv_data_ := false
    prv_descriptor_ := some 0
    sync_prv_to_cpu_ := some exConv
    next_ptr := 2 }

end SyncedMem

namespace SyncedMem

theorem mutable_cpu_data_head (m m1 : SyncedMemory) (p : Option Ptr)
    (ev1 : List MemEvent) (h : mutable_cpu_data m = some (m1, p, ev1)) :
    m1.head_ = SyncedHead.HEAD_AT_CPU := by
  unfold mutable_cpu_data at h
  cases hto : to_cpu m with
  | none => rw [hto] at h; simp at h
  | some r =>
      rw [hto] at h
      simp only [Option.some.injEq, Prod.mk.injEq] at h
      rw [← h.1]

/-- Claim C10: immediately after construction, `head()` returns
`UNINITIALIZED` and `size()` returns the size passed to the constructor;
the default constructor yields `size() = 0`.  Both observers are pure: in
the embedding they are plain projections of the state, as witnessed by
the last conjunct, and they produce no events and no state change by
construction. -/
theorem construction_initial_state (s : Nat) :
    (newSyncedMemory s).head = SyncedHead.UNINITIALIZED ∧
    (newSyncedMemory s).size = s ∧
    defaultSyncedMemory.head = SyncedHead.UNINITIALIZED ∧
    defaultSyncedMemory.size = 0 ∧
    (∀ m : SyncedMemory, m.head = m.head_ ∧ m.size = m.size_) :=
  ⟨rfl, rfl, rfl, rfl, fun _ => ⟨rfl, rfl⟩⟩

/-- Claim C8: for every requested size, if the host or device allocator
returns a null pointer the operation terminates fatally
(`Except.error`) with a message identifying the failing operation and the
requested size; otherwise the allocator's pointer is returned as is.
There is no retry, no recoverable return, and no path that continues with
a null pointer (`toOption` is never `some 0`). -/
theorem alloc_failure_is_fatal (r : Ptr) (s : Nat) :
    CaffeMallocHost r s
      = (if r = 0 then Except.error (hostAllocFailMsg s) else Except.ok r) ∧
    deviceMalloc r s
      = (if r = 0 then Except.error (deviceAllocFailMsg s) else Except.ok r) ∧
    (CaffeMallocHost r s).toOption ≠ some 0 ∧
    (deviceMalloc r s).toOption ≠ some 0 ∧
    hostAllocFailMsg s = "host allocation of size " ++ toString s ++ " failed" ∧
    deviceAllocFailMsg s = "device allocation of size " ++ toString s ++ " failed" := by
  refine ⟨rfl, rfl, ?_, ?_, rfl, rfl⟩
  · unfold CaffeMallocHost
    split <;> simp_all [Except.toOption]
  · unfold deviceMalloc
    split <;> simp_all [Except.toOption]

theorem alloc_failure_is_fatal_witness :
    CaffeMallocHost 0 64
      = (if (0 : Ptr) = 0 then Except.error (hostAllocFailMsg 64) else Except.ok 0) ∧
    deviceMalloc 0 64
      = (if (0 : Ptr) = 0 then Except.error (deviceAllocFailMsg 64) else Except.ok 0) ∧
    (CaffeMallocHost 0 64).toOption ≠ some 0 ∧
    (deviceMalloc 0 64).toOption ≠ some 0 ∧
    hostAllocFailMsg 64 = "host allocation of size " ++ toString 64 ++ " failed" ∧
    deviceAllocFailMsg 64 = "device allocation of size " ++ toString 64 ++ " failed" :=
  alloc_failure_is_fatal 0 64

/-- Claim C4: a `cpu_data()` call on a buffer in state `UNINITIALIZED`
(no host allocation yet) performs exactly one host allocation and zero
device copies, returns the fresh host pointer, and leaves `head()` at
`HEAD_AT_CPU`. -/
theorem cpu_data_on_uninitialized (m : SyncedMemory)
    (hh : m.head_ = SyncedHead.UNINITIALIZED) (hc : m.cpu_ptr_ = none) :
    ∃ m' : SyncedMemory,
      cpu_data m = some (m', some m.next_ptr, [MemEvent.allocHost m.size_]) ∧
      m'.head = SyncedHead.HEAD_AT_CPU ∧
      countHostAllocs [MemEvent.allocHost m.size_] = 1 ∧
      countCopies [MemEvent.allocHost m.size_] = 0 ∧
      countDeviceAllocs [MemEvent.allocHost m.size_] = 0 := by
  refine ⟨{ m with
      cpu_ptr_ := some m.next_ptr
      next_ptr := m.next_ptr + 1
      cpu_mem := List.replicate m.size_ 0
      own_cpu_data_ := true
      head_ := SyncedHead.HEAD_AT_CPU }, ?_, rfl, ?_, ?_, ?_⟩
  · simp [cpu_data, to_cpu, allocHostIfAbsent, hh, hc]
  · simp [countHostAllocs]
  · simp [countCopies, countD2H, countH2D]
  · simp [countDeviceAllocs]

theorem cpu_data_on_uninitialized_witness :
    (newSyncedMemory 3).head_ = SyncedHead.UNINITIALIZED ∧
    (newSyncedMemory 3).cpu_ptr_ = none ∧
    ∃ m' : SyncedMemory,
      cpu_data (newSyncedMemory 3)
        = some (m', some (newSyncedMemory 3).next_ptr,
                [MemEvent.allocHost (newSyncedMemory 3).size_]) ∧
      m'.head = SyncedHead.HEAD_AT_CPU ∧
      countHostAllocs [MemEvent.allocHost (newSyncedMemory 3).size_] = 1 ∧
      countCopies [MemEvent.allocHost (newSyncedMemory 3).size_] = 0 ∧
      countDeviceAllocs [MemEvent.allocHost (newSyncedMemory 3).size_] = 0 :=
  ⟨rfl, rfl, cpu_data_on_uninitialized (newSyncedMemory 3) rfl rfl⟩

/-- Claim C1: writing a byte string of the buffer's length through the
pointer returned by `mutable_cpu_data()` and then calling `gpu_data()`
leaves the device bytes identical to the bytes written on the host, and
afterwards `head()` returns `SYNCED`. -/
theorem writeHost_then_readDevice_syncs (m m1 : SyncedMemory) (p : Option Ptr)
    (ev1 : List MemEvent) (bs : List Nat)
    (h : mutable_cpu_data m = some (m1, p, ev1)) (_hlen : bs.length = m.size) :
    (gpu_data (writeHostBytes m1 bs)).isSome = true ∧
    ∀ m3 q ev2, gpu_data (writeHostBytes m1 bs) = some (m3, q, ev2) →
      m3.gpu_mem = bs ∧ m3.head = SyncedHead.SYNCED := by
  have h1 : m1.head_ = SyncedHead.HEAD_AT_CPU := mutable_cpu_data_head m m1 p ev1 h
  cases hg : m1.gpu_ptr_ with
  | none =>
      constructor
      · simp [gpu_data, to_gpu, allocDeviceIfAbsent, writeHostBytes, h1, hg]
      · intro m3 q ev2 heq
        simp [gpu_data, to_gpu, allocDeviceIfAbsent, writeHostBytes, h1, hg] at heq
        obtain ⟨hm3, _, _⟩ := heq
        rw [← hm3]
        exact ⟨rfl, rfl⟩
  | some g =>
      constructor
      · simp [gpu_data, to_gpu, allocDeviceIfAbsent, writeHostBytes, h1, hg]
      · intro m3 q ev2 heq
        simp [gpu_data, to_gpu, allocDeviceIfAbsent, writeHostBytes, h1, hg] at heq
        obtain ⟨hm3, _, _⟩ := heq
        rw [← hm3]
        exact ⟨rfl, rfl⟩

theorem writeHost_then_readDevice_syncs_witness :
    mutable_cpu_data exFresh2
      = some (exFresh2AfterWrite, some 1, [MemEvent.allocHost 2]) ∧
    ([5, 6] : List Nat).length = exFresh2.size ∧
    (gpu_data (writeHostBytes exFresh2AfterWrite [5, 6])).isSome = true ∧
    ∀ m3 q ev2,
      gpu_data (writeHostBytes exFresh2AfterWrite [5, 6]) = some (m3, q, ev2) →
        m3.gpu_mem = [5, 6] ∧ m3.head = SyncedHead.SYNCED := by
  refine ⟨rfl, rfl, ?_⟩
  exact writeHost_then_readDevice_syncs exFresh2 exFresh2AfterWrite (some 1)
    [MemEvent.allocHost 2] [5, 6] rfl rfl

end SyncedMem

namespace SyncedMem

/-- Claim C2: on a buffer in state `SYNCED`, `mutable_gpu_data()`
transitions `head()` to `HEAD_AT_GPU` (with no copy); after writing bytes
on the device, a subsequent `cpu_data()` call performs exactly one
device-to-host copy (and no host-to-device copy) and returns the host
pointer, whose bytes equal the bytes most recently written on the
device. -/
theorem writeDevice_then_readHost_copies_once (m : SyncedMemory)
    (h : m.head_ = SyncedHead.SYNCED) :
    mutable_gpu_data m
      = some ({ m with head_ := SyncedHead.HEAD_AT_GPU }, m.gpu_ptr_, []) ∧
    ∀ bs : List Nat,
      (cpu_data (writeDeviceBytes { m with head_ := SyncedHead.HEAD_AT_GPU } bs)).isSome
        = true ∧
      ∀ m2 q ev,
        cpu_data (writeDeviceBytes { m with head_ := SyncedHead.HEAD_AT_GPU } bs)
          = some (m2, q, ev) →
        countD2H ev = 1 ∧ countH2D ev = 0 ∧ m2.cpu_mem = bs ∧ q = m2.cpu_ptr_ := by
  constructor
  · simp [mutable_gpu_data, to_gpu, h]
  · intro bs
    cases hc : m.cpu_ptr_ with
    | none =>
        constructor
        · simp [cpu_data, to_cpu, allocHostIfAbsent, writeDeviceBytes, hc]
        · intro m2 q ev heq
          simp [cpu_data, to_cpu, allocHostIfAbsent, writeDeviceBytes, hc] at heq
          obtain ⟨h1, h2, h3⟩ := heq
          subst h1; subst h2; subst h3
          exact ⟨rfl, rfl, rfl, rfl⟩
    | some cptr =>
        constructor
        · simp [cpu_data, to_cpu, allocHostIfAbsent, writeDeviceBytes, hc]
        · intro m2 q ev heq
          simp [cpu_data, to_cpu, allocHostIfAbsent, writeDeviceBytes, hc] at heq
          obtain ⟨h1, h2, h3⟩ := heq
          subst h1; subst h2; subst h3
          exact ⟨rfl, rfl, rfl, rfl⟩

theorem writeDevice_then_readHost_copies_once_witness :
    exSynced1.head_ = SyncedHead.SYNCED ∧
    (mutable_gpu_data exSynced1
      = some ({ exSynced1 with head_ := SyncedHead.HEAD_AT_GPU },
              exSynced1.gpu_ptr_, []) ∧
    ∀ bs : List Nat,
      (cpu_data (writeDeviceBytes { exSynced1 with head_ := SyncedHead.HEAD_AT_GPU } bs)).isSome
        = true ∧
      ∀ m2 q ev,
        cpu_data (writeDeviceBytes { exSynced1 with head_ := SyncedHead.HEAD_AT_GPU } bs)
          = some (m2, q, ev) →
        countD2H ev = 1 ∧ countH2D ev = 0 ∧ m2.cpu_mem = bs ∧ q = m2.cpu_ptr_) :=
  ⟨rfl, writeDevice_then_readHost_copies_once exSynced1 rfl⟩

/-- Claim C3: a `mutable_prv_data()` call sets `head()` to `HEAD_AT_PRV`
unconditionally, whatever the prior state of any buffer on which a
private buffer exists (first conjunct, over arbitrary buffers); after
`init_prv_data()` followed by `mutable_prv_data()`, a `cpu_data()` call
from `HEAD_AT_PRV` invokes the private-to-host converter exactly once,
materializes the converter's output in the host buffer, and leaves
`head()` at `SYNCED_PRV`. -/
theorem private_write_then_readHost_converts_once (m : SyncedMemory)
    (f : List Nat → Nat → List Nat) (d : Nat)
    (hf : m.sync_prv_to_cpu_ = some f) (hd : m.prv_descriptor_ = some d) :
    (∀ n m2 q ev, mutable_prv_data n = some (m2, q, ev) →
        m2.head = SyncedHead.HEAD_AT_PRV) ∧
    ∀ m1 p ev1, init_prv_data m = (m1, p, ev1) →
      (mutable_prv_data m1).isSome = true ∧
      ∀ m2 q ev2, mutable_prv_data m1 = some (m2, q, ev2) →
        m2.head = SyncedHead.HEAD_AT_PRV ∧ ev2 = [] ∧
        (cpu_data m2).isSome = true ∧
        ∀ m3 r ev3, cpu_data m2 = some (m3, r, ev3) →
          countConverts ev3 = 1 ∧ m3.head = SyncedHead.SYNCED_PRV ∧
          m3.cpu_mem = f m2.prv_mem d := by
  constructor
  · intro n m2 q ev hmp
    unfold mutable_prv_data at hmp
    cases hn : n.prv_ptr_ with
    | none => rw [hn] at hmp; simp at hmp
    | some pp =>
        rw [hn] at hmp
        simp only [Option.some.injEq, Prod.mk.injEq] at hmp
        rw [← hmp.1]
        rfl
  · intro m1 p ev1 hinit
    unfold init_prv_data at hinit
    cases hp : m.prv_ptr_ with
    | none =>
        rw [hp] at hinit
        simp only [Prod.mk.injEq] at hinit
        obtain ⟨h1, h2, h3⟩ := hinit
        subst h1
        constructor
        · simp [mutable_prv_data]
        · intro m2 q ev2 hm
          simp only [mutable_prv_data, Option.some.injEq, Prod.mk.injEq] at hm
          obtain ⟨g1, g2, g3⟩ := hm
          subst g1; subst g3
          refine ⟨rfl, rfl, ?_, ?_⟩
          · cases hc : m.cpu_ptr_ <;>
              simp [cpu_data, to_cpu, allocHostIfAbsent, hf, hd, hc]
          · intro m3 r ev3 hcd
            cases hc : m.cpu_ptr_ <;>
              · simp [cpu_data, to_cpu, allocHostIfAbsent, hf, hd, hc] at hcd
                obtain ⟨k1, k2, k3⟩ := hcd
                subst k1; subst k3
                exact ⟨rfl, rfl, rfl⟩
    | some pp =>
        rw [hp] at hinit
        simp only [Prod.mk.injEq] at hinit
        obtain ⟨h1, h2, h3⟩ := hinit
        subst h1
        constructor
        · simp [mutable_prv_data]
        · intro m2 q ev2 hm
          simp only [mutable_prv_data, Option.some.injEq, Prod.mk.injEq] at hm
          obtain ⟨g1, g2, g3⟩ := hm
          subst g1; subst g3
          refine ⟨rfl, rfl, ?_, ?_⟩
          · cases hc : m.cpu_ptr_ <;>
              simp [cpu_data, to_cpu, allocHostIfAbsent, hf, hd, hc]
          · intro m3 r ev3 hcd
            cases hc : m.cpu_ptr_ <;>
              · simp [cpu_data, to_cpu, allocHostIfAbsent, hf, hd, hc] at hcd
                obtain ⟨k1, k2, k3⟩ := hcd
                subst k1; subst k3
                exact ⟨rfl, rfl, rfl⟩

theorem private_write_then_readHost_converts_once_witness :
    exPrvReady.sync_prv_to_cpu_ = some exConv ∧
    exPrvReady.prv_descriptor_ = some 0 ∧
    ((∀ n m2 q ev, mutable_prv_data n = some (m2, q, ev) →
        m2.head = SyncedHead.HEAD_AT_PRV) ∧
    ∀ m1 p ev1, init_prv_data exPrvReady = (m1, p, ev1) →
      (mutable_prv_data m1).isSome = true ∧
      ∀ m2 q ev2, mutable_prv_data m1 = some (m2, q, ev2) →
        m2.head = SyncedHead.HEAD_AT_PRV ∧ ev2 = [] ∧
        (cpu_data m2).isSome = true ∧
        ∀ m3 r ev3, cpu_data m2 = some (m3, r, ev3) →
          countConverts ev3 = 1 ∧ m3.head = SyncedHead.SYNCED_PRV ∧
          m3.cpu_mem = exConv m2.prv_mem 0) :=
  ⟨rfl, rfl, private_write_then_readHost_converts_once exPrvReady exConv 0 rfl rfl⟩

/-- Claim C5: on a buffer in state `SYNCED`, any sequence of `cpu_data()`
and `gpu_data()` calls with no intervening writes performs no copy (or
any other) operation, leaves the buffer — in particular `head()` —
unchanged, and every call of an accessor returns the same pointer as any
other call of that accessor (`cpu_data` always returns the host pointer,
`gpu_data` always the device pointer of the unchanged buffer). -/
theorem synced_reads_are_free (m : SyncedMemory) (h : m.head_ = SyncedHead.SYNCED)
    (ops : List ReadOp) :
    runReads m ops = some (m, ops.map (readPtrOf m), []) := by
  induction ops with
  | nil => rfl
  | cons op rest ih =>
      cases op with
      | rhost => simp [runReads, cpu_data, to_cpu, h, readPtrOf, ih]
      | rdevice => simp [runReads, gpu_data, to_gpu, h, readPtrOf, ih]

theorem synced_reads_are_free_witness :
    exSynced1.head_ = SyncedHead.SYNCED ∧
    runReads exSynced1 [ReadOp.rhost, ReadOp.rdevice, ReadOp.rhost]
      = some (exSynced1,
              ([ReadOp.rhost, ReadOp.rdevice, ReadOp.rhost]).map (readPtrOf exSynced1),
              []) :=
  ⟨rfl, synced_reads_are_free exSynced1 rfl [ReadOp.rhost, ReadOp.rdevice, ReadOp.rhost]⟩

end SyncedMem

namespace SyncedMem

/-- Claim C6: for every buffer and every state, a `cpu_data()` call never
allocates device memory and leaves the device pointer slot unchanged
(hence unchanged if it was null); on a well-formed buffer the returned
pointer is the non-null host pointer, the host buffer is valid for
`size()` bytes, and it holds the most recent data as of the call. -/
theorem cpu_data_never_allocates_device (m m' : SyncedMemory) (p : Option Ptr)
    (ev : List MemEvent) (h : cpu_data m = some (m', p, ev)) (hwf : WFcpu m = true) :
    countDeviceAllocs ev = 0 ∧ m'.gpu_ptr_ = m.gpu_ptr_ ∧ p = m'.cpu_ptr_ ∧
    m'.cpu_ptr_.isSome = true ∧ m'.cpu_mem.length = m.size ∧
    m'.cpu_mem = currentBytes m := by
  cases hh : m.head_ with
  | UNINITIALIZED =>
      have hc : m.cpu_ptr_ = none := by
        simp only [WFcpu, hh, beq_iff_eq] at hwf
        exact hwf
      simp [cpu_data, to_cpu, allocHostIfAbsent, hh, hc] at h
      obtain ⟨h1, h2, h3⟩ := h
      subst h1; subst h2; subst h3
      exact ⟨rfl, rfl, rfl, rfl, by simp [SyncedMemory.size], by simp [currentBytes, hh]⟩
  | HEAD_AT_CPU =>
      simp only [WFcpu, hh, Bool.and_eq_true, beq_iff_eq, Bool.not_eq_true',
        beq_eq_false_iff_ne, ne_eq] at hwf
      obtain ⟨hl, hcn⟩ := hwf
      simp [cpu_data, to_cpu, hh] at h
      obtain ⟨h1, h2, h3⟩ := h
      subst h1; subst h2; subst h3
      refine ⟨rfl, rfl, rfl, Option.isSome_iff_ne_none.mpr hcn, hl, ?_⟩
      simp [currentBytes, hh]
  | SYNCED =>
      simp only [WFcpu, hh, Bool.and_eq_true, beq_iff_eq, Bool.not_eq_true',
        beq_eq_false_iff_ne, ne_eq] at hwf
      obtain ⟨hl, hcn⟩ := hwf
      simp [cpu_data, to_cpu, hh] at h
      obtain ⟨h1, h2, h3⟩ := h
      subst h1; subst h2; subst h3
      refine ⟨rfl, rfl, rfl, Option.isSome_iff_ne_none.mpr hcn, hl, ?_⟩
      simp [currentBytes, hh]
  | SYNCED_PRV =>
      simp only [WFcpu, hh, Bool.and_eq_true, beq_iff_eq, Bool.not_eq_true',
        beq_eq_false_iff_ne, ne_eq] at hwf
      obtain ⟨hl, hcn⟩ := hwf
      simp [cpu_data, to_cpu, hh] at h
      obtain ⟨h1, h2, h3⟩ := h
      subst h1; subst h2; subst h3
      refine ⟨rfl, rfl, rfl, Option.isSome_iff_ne_none.mpr hcn, hl, ?_⟩
      simp [currentBytes, hh]
  | HEAD_AT_GPU =>
      have hl : m.gpu_mem.length = m.size_ := by
        simp only [WFcpu, hh, beq_iff_eq] at hwf
        exact hwf
      cases hc : m.cpu_ptr_ with
      | none =>
          simp [cpu_data, to_cpu, allocHostIfAbsent, hh, hc] at h
          obtain ⟨h1, h2, h3⟩ := h
          subst h1; subst h2; subst h3
          exact ⟨rfl, rfl, rfl, rfl, hl, by simp [currentBytes, hh]⟩
      | some c =>
          simp [cpu_data, to_cpu, allocHostIfAbsent, hh, hc] at h
          obtain ⟨h1, h2, h3⟩ := h
          subst h1; subst h2; subst h3
          exact ⟨rfl, rfl, rfl, by simp [hc], hl, by simp [currentBytes, hh]⟩
  | HEAD_AT_PRV =>
      cases hsf : m.sync_prv_to_cpu_ with
      | none => simp [cpu_data, to_cpu, hh, hsf] at h
      | some f =>
          cases hpd : m.prv_descriptor_ with
          | none => simp [cpu_data, to_cpu, hh, hsf, hpd] at h
          | some d =>
              have hl : (f m.prv_mem d).length = m.size_ := by
                simp only [WFcpu, hh, hsf, hpd, beq_iff_eq] at hwf
                exact hwf
              cases hc : m.cpu_ptr_ with
              | none =>
                  simp [cpu_data, to_cpu, allocHostIfAbsent, hh, hsf, hpd, hc] at h
                  obtain ⟨h1, h2, h3⟩ := h
                  subst h1; subst h2; subst h3
                  exact ⟨rfl, rfl, rfl, rfl, hl, by simp [currentBytes, hh, hsf, hpd]⟩
              | some c =>
                  simp [cpu_data, to_cpu, allocHostIfAbsent, hh, hsf, hpd, hc] at h
                  obtain ⟨h1, h2, h3⟩ := h
                  subst h1; subst h2; subst h3
                  exact ⟨rfl, rfl, rfl, by simp [hc], hl,
                    by simp [currentBytes, hh, hsf, hpd]⟩

theorem cpu_data_never_allocates_device_witness :
    cpu_data exFresh2 = some (exFresh2AfterWrite, some 1, [MemEvent.allocHost 2]) ∧
    WFcpu exFresh2 = true ∧
    (countDeviceAllocs [MemEvent.allocHost 2] = 0 ∧
     exFresh2AfterWrite.gpu_ptr_ = exFresh2.gpu_ptr_ ∧
     some 1 = exFresh2AfterWrite.cpu_ptr_ ∧
     exFresh2AfterWrite.cpu_ptr_.isSome = true ∧
     exFresh2AfterWrite.cpu_mem.length = exFresh2.size ∧
     exFresh2AfterWrite.cpu_mem = currentBytes exFresh2) :=
  ⟨rfl, rfl, cpu_data_never_allocates_device exFresh2 exFresh2AfterWrite (some 1)
    [MemEvent.allocHost 2] rfl rfl⟩

/-- Claim C7: `set_cpu_data(p)` with an externally owned pointer `p`
releases any host allocation the buffer previously owned (and frees
nothing otherwise), sets `head()` to `HEAD_AT_CPU`, marks the host slot
as not owned, and a subsequent destruction of the buffer never frees `p`
(the hypothesis records that the external `p` is not the buffer's own
private allocation). -/
theorem set_cpu_data_external_pointer (m : SyncedMemory) (p : Ptr) (data : List Nat)
    (hsep : m.own_prv_data_ = true → ¬ m.prv_ptr_ = some p) :
    (set_cpu_data m p data).1.head = SyncedHead.HEAD_AT_CPU ∧
    (set_cpu_data m p data).1.own_cpu_data_ = false ∧
    (set_cpu_data m p data).1.cpu_ptr_ = some p ∧
    (∀ q, m.own_cpu_data_ = true → m.cpu_ptr_ = some q →
        (set_cpu_data m p data).2 = [MemEvent.freeHost q]) ∧
    (m.own_cpu_data_ = false → (set_cpu_data m p data).2 = []) ∧
    MemEvent.freeHost p ∉ destroy (set_cpu_data m p data).1 := by
  refine ⟨rfl, rfl, rfl, ?_, ?_, ?_⟩
  · intro q ho hq
    simp [set_cpu_data, ho, hq]
  · intro ho
    cases hcp : m.cpu_ptr_ <;> simp [set_cpu_data, ho, hcp]
  · cases hgp : m.gpu_ptr_ with
    | none =>
        cases hpp : m.prv_ptr_ with
        | none => simp [destroy, set_cpu_data, hgp, hpp]
        | some q =>
            cases hop : m.own_prv_data_ with
            | false => simp [destroy, set_cpu_data, hgp, hpp, hop]
            | true =>
                have hqp1 : ¬ p = q := fun e => hsep hop (by rw [hpp, e])
                have hqp2 : ¬ q = p := fun e => hqp1 e.symm
                simp [destroy, set_cpu_data, hgp, hpp, hop, hqp1, hqp2]
    | some g =>
        cases hpp : m.prv_ptr_ with
        | none => simp [destroy, set_cpu_data, hgp, hpp]
        | some q =>
            cases hop : m.own_prv_data_ with
            | false => simp [destroy, set_cpu_data, hgp, hpp, hop]
            | true =>
                have hqp1 : ¬ p = q := fun e => hsep hop (by rw [hpp, e])
                have hqp2 : ¬ q = p := fun e => hqp1 e.symm
                simp [destroy, set_cpu_data, hgp, hpp, hop, hqp1, hqp2]

theorem set_cpu_data_external_pointer_witness :
    (exSynced1.own_prv_data_ = true → ¬ exSynced1.prv_ptr_ = some 5) ∧
    ((set_cpu_data exSynced1 5 [3]).1.head = SyncedHead.HEAD_AT_CPU ∧
     (set_cpu_data exSynced1 5 [3]).1.own_cpu_data_ = false ∧
     (set_cpu_data exSynced1 5 [3]).1.cpu_ptr_ = some 5 ∧
     (∀ q, exSynced1.own_cpu_data_ = true → exSynced1.cpu_ptr_ = some q →
         (set_cpu_data exSynced1 5 [3]).2 = [MemEvent.freeHost q]) ∧
     (exSynced1.own_cpu_data_ = false → (set_cpu_data exSynced1 5 [3]).2 = []) ∧
     MemEvent.freeHost 5 ∉ destroy (set_cpu_data exSynced1 5 [3]).1) :=
  ⟨fun h => Bool.noConfusion h,
   set_cpu_data_external_pointer exSynced1 5 [3] (fun h => Bool.noConfusion h)⟩

end SyncedMem

namespace SyncedMem

theorem to_cpu_prv_fields (m m1 : SyncedMemory) (ev : List MemEvent)
    (h : to_cpu m = some (m1, ev)) :
    m1.prv_descriptor_ = m.prv_descriptor_ ∧
    m1.sync_prv_to_cpu_ = m.sync_prv_to_cpu_ := by
  cases hh : m.head_ with
  | UNINITIALIZED =>
      cases hc : m.cpu_ptr_ <;>
        · simp [to_cpu, allocHostIfAbsent, hh, hc] at h
          obtain ⟨h1, h2⟩ := h
          subst h1
          exact ⟨rfl, rfl⟩
  | HEAD_AT_GPU =>
      cases hc : m.cpu_ptr_ <;>
        · simp [to_cpu, allocHostIfAbsent, hh, hc] at h
          obtain ⟨h1, h2⟩ := h
          subst h1
          exact ⟨rfl, rfl⟩
  | HEAD_AT_PRV =>
      cases hsf : m.sync_prv_to_cpu_ with
      | none => simp [to_cpu, hh, hsf] at h
      | some f =>
          cases hpd : m.prv_descriptor_ with
          | none => simp [to_cpu, hh, hsf, hpd] at h
          | some d =>
              cases hc : m.cpu_ptr_ <;>
                · simp [to_cpu, allocHostIfAbsent, hh, hsf, hpd, hc] at h
                  obtain ⟨h1, h2⟩ := h
                  subst h1
                  exact ⟨rfl, rfl⟩
  | HEAD_AT_CPU =>
      simp [to_cpu, hh] at h
      obtain ⟨h1, h2⟩ := h
      subst h1
      exact ⟨rfl, rfl⟩
  | SYNCED =>
      simp [to_cpu, hh] at h
      obtain ⟨h1, h2⟩ := h
      subst h1
      exact ⟨rfl, rfl⟩
  | SYNCED_PRV =>
      simp [to_cpu, hh] at h
      obtain ⟨h1, h2⟩ := h
      subst h1
      exact ⟨rfl, rfl⟩

theorem to_gpu_prv_fields (m m1 : SyncedMemory) (ev : List MemEvent)
    (h : to_gpu m = some (m1, ev)) :
    m1.prv_descriptor_ = m.prv_descriptor_ ∧
    m1.sync_prv_to_cpu_ = m.sync_prv_to_cpu_ := by
  cases hh : m.head_ with
  | UNINITIALIZED =>
      cases hg : m.gpu_ptr_ <;>
        · simp [to_gpu, allocDeviceIfAbsent, hh, hg] at h
          obtain ⟨h1, h2⟩ := h
          subst h1
          exact ⟨rfl, rfl⟩
  | HEAD_AT_CPU =>
      cases hg : m.gpu_ptr_ <;>
        · simp [to_gpu, allocDeviceIfAbsent, hh, hg] at h
          obtain ⟨h1, h2⟩ := h
          subst h1
          exact ⟨rfl, rfl⟩
  | HEAD_AT_PRV =>
      cases hsf : m.sync_prv_to_cpu_ with
      | none => simp [to_gpu, hh, hsf] at h
      | some f =>
          cases hpd : m.prv_descriptor_ with
          | none => simp [to_gpu, hh, hsf, hpd] at h
          | some d =>
              cases hc : m.cpu_ptr_ <;> cases hg : m.gpu_ptr_ <;>
                · simp [to_gpu, allocHostIfAbsent, allocDeviceIfAbsent,
                    hh, hsf, hpd, hc, hg] at h
                  obtain ⟨h1, h2⟩ := h
                  subst h1
                  exact ⟨rfl, rfl⟩
  | HEAD_AT_GPU =>
      simp [to_gpu, hh] at h
      obtain ⟨h1, h2⟩ := h
      subst h1
      exact ⟨rfl, rfl⟩
  | SYNCED =>
      simp [to_gpu, hh] at h
      obtain ⟨h1, h2⟩ := h
      subst h1
      exact ⟨rfl, rfl⟩
  | SYNCED_PRV =>
      simp [to_gpu, hh] at h
      obtain ⟨h1, h2⟩ := h
      subst h1
      exact ⟨rfl, rfl⟩

theorem prvConsistent_congr (m m1 : SyncedMemory)
    (h1 : m1.prv_descriptor_ = m.prv_descriptor_)
    (h2 : m1.sync_prv_to_cpu_ = m.sync_prv_to_cpu_)
    (hm : prvConsistent m = true) : prvConsistent m1 = true := by
  unfold prvConsistent at hm ⊢
  rw [h1, h2]
  exact hm

/-- Claim C9: the private-layout descriptor and the private-to-host
converter are both unset at construction and every operation of the
public interface preserves the invariant that they are either both set
or both unset (the backend's setter installs them together). -/
theorem prv_descriptor_converter_paired (m : SyncedMemory) (s p d : Nat)
    (data : List Nat) (b : Bool) (f : List Nat → Nat → List Nat)
    (hm : prvConsistent m = true) :
    prvConsistent (newSyncedMemory s) = true ∧
    (∀ m1 q ev, cpu_data m = some (m1, q, ev) → prvConsistent m1 = true) ∧
    (∀ m1 q ev, gpu_data m = some (m1, q, ev) → prvConsistent m1 = true) ∧
    (∀ m1 q ev, mutable_cpu_data m = some (m1, q, ev) → prvConsistent m1 = true) ∧
    (∀ m1 q ev, mutable_gpu_data m = some (m1, q, ev) → prvConsistent m1 = true) ∧
    prvConsistent (set_cpu_data m p data).1 = true ∧
    prvConsistent (init_prv_data m).1 = true ∧
    (∀ m1 q ev, prv_data m = some (m1, q, ev) → prvConsistent m1 = true) ∧
    (∀ m1 q ev, mutable_prv_data m = some (m1, q, ev) → prvConsistent m1 = true) ∧
    prvConsistent (set_prv_data m p data b) = true ∧
    prvConsistent (set_prv_converter m d f) = true := by
  refine ⟨rfl, ?_, ?_, ?_, ?_, ?_, ?_, ?_, ?_, ?_, rfl⟩
  · intro m1 q ev h
    unfold cpu_data at h
    cases hto : to_cpu m with
    | none => rw [hto] at h; simp at h
    | some r =>
        rw [hto] at h
        simp only [Option.some.injEq, Prod.mk.injEq] at h
        obtain ⟨hr, -, -⟩ := h
        have hf2 := to_cpu_prv_fields m r.1 r.2 (by rw [hto])
        exact prvConsistent_congr m m1 (hr ▸ hf2.1) (hr ▸ hf2.2) hm
  · intro m1 q ev h
    unfold gpu_data at h
    cases hto : to_gpu m with
    | none => rw [hto] at h; simp at h
    | some r =>
        rw [hto] at h
        simp only [Option.some.injEq, Prod.mk.injEq] at h
        obtain ⟨hr, -, -⟩ := h
        have hf2 := to_gpu_prv_fields m r.1 r.2 (by rw [hto])
        exact prvConsistent_congr m m1 (hr ▸ hf2.1) (hr ▸ hf2.2) hm
  · intro m1 q ev h
    unfold mutable_cpu_data at h
    cases hto : to_cpu m with
    | none => rw [hto] at h; simp at h
    | some r =>
        rw [hto] at h
        simp only [Option.some.injEq, Prod.mk.injEq] at h
        obtain ⟨hr, -, -⟩ := h
        have hf2 := to_cpu_prv_fields m r.1 r.2 (by rw [hto])
        exact prvConsistent_congr m m1 (hr ▸ hf2.1) (hr ▸ hf2.2) hm
  · intro m1 q ev h
    unfold mutable_gpu_data at h
    cases hto : to_gpu m with
    | none => rw [hto] at h; simp at h
    | some r =>
        rw [hto] at h
        simp only [Option.some.injEq, Prod.mk.injEq] at h
        obtain ⟨hr, -, -⟩ := h
        have hf2 := to_gpu_prv_fields m r.1 r.2 (by rw [hto])
        exact prvConsistent_congr m m1 (hr ▸ hf2.1) (hr ▸ hf2.2) hm
  · exact prvConsistent_congr m _ rfl rfl hm
  · cases hp : m.prv_ptr_ with
    | none =>
        refine prvConsistent_congr m _ ?_ ?_ hm <;> simp [init_prv_data, hp]
    | some q =>
        refine prvConsistent_congr m _ ?_ ?_ hm <;> simp [init_prv_data, hp]
  · intro m1 q ev h
    unfold prv_data at h
    cases hp : m.prv_ptr_ with
    | none => rw [hp] at h; simp at h
    | some pp =>
        rw [hp] at h
        simp only [Option.some.injEq, Prod.mk.injEq] at h
        obtain ⟨hr, -, -⟩ := h
        exact prvConsistent_congr m m1 (hr ▸ rfl) (hr ▸ rfl) hm
  · intro m1 q ev h
    unfold mutable_prv_data at h
    cases hp : m.prv_ptr_ with
    | none => rw [hp] at h; simp at h
    | some pp =>
        rw [hp] at h
        simp only [Option.some.injEq, Prod.mk.injEq] at h
        obtain ⟨hr, -, -⟩ := h
        exact prvConsistent_congr m m1 (hr ▸ rfl) (hr ▸ rfl) hm
  · exact prvConsistent_congr m _ rfl rfl hm

theorem prv_descriptor_converter_paired_witness :
    prvConsistent exPrvReady = true ∧
    (prvConsistent (newSyncedMemory 1) = true ∧
    (∀ m1 q ev, cpu_data exPrvReady = some (m1, q, ev) → prvConsistent m1 = true) ∧
    (∀ m1 q ev, gpu_data exPrvReady = some (m1, q, ev) → prvConsistent m1 = true) ∧
    (∀ m1 q ev, mutable_cpu_data exPrvReady = some (m1, q, ev) →
        prvConsistent m1 = true) ∧
    (∀ m1 q ev, mutable_gpu_data exPrvReady = some (m1, q, ev) →
        prvConsistent m1 = true) ∧
    prvConsistent (set_cpu_data exPrvReady 7 [1]).1 = true ∧
    prvConsistent (init_prv_data exPrvReady).1 = true ∧
    (∀ m1 q ev, prv_data exPrvReady = some (m1, q, ev) → prvConsistent m1 = true) ∧
    (∀ m1 q ev, mutable_prv_data exPrvReady = some (m1, q, ev) →
        prvConsistent m1 = true) ∧
    prvConsistent (set_prv_data exPrvReady 7 [1] false) = true ∧
    prvConsistent (set_prv_converter exPrvReady 0 exConv) = true) :=
  ⟨rfl, prv_descriptor_converter_paired exPrvReady 1 7 0 [1] false exConv rfl⟩

end SyncedMem
